import Mathlib

set_option maxRecDepth 8000

/-!
A shallow embedding of the defensive utilities in the kuro repository: the
value normalizer `ensureArray`, the safe path lookup `safeGet` (in its two
source variants), the safe bulk fetch `safeInputAll`, and the task-complexity
classifier `classifyTaskComplexity` from the project rules document.

Values flowing through these snippets are JSON-like JavaScript values, modelled
by the inductive `JSVal` (no function values appear in the data the snippets
process). Numbers are modelled as integers: every numeric literal the snippets
compare against is an integer, and no claim depends on fractional arithmetic.
Operations that can throw in JavaScript are modelled in `Except JSErr`; a
`try { } catch { }` block in the source becomes a `match` on that `Except`.
-/

/-- A JavaScript runtime error, as far as these snippets can observe one. -/
inductive JSErr : Type where
  | typeError : String → JSErr
  | jsonError : String → JSErr
deriving Repr, DecidableEq

/-- A JSON-like JavaScript value: the data the snippets process. -/
inductive JSVal : Type where
  | vNull : JSVal
  | vUndefined : JSVal
  | vBool : Bool → JSVal
  | vNum : Int → JSVal
  | vStr : String → JSVal
  | vArr : List JSVal → JSVal
  | vObj : List (String × JSVal) → JSVal

/-- `Array.isArray(value)`. -/
def JSVal.isArray : JSVal → Bool
  | .vArr _ => true
  | _ => false

/-- `value === null || value === undefined` (the nullish test). -/
def JSVal.isNullish : JSVal → Bool
  | .vNull => true
  | .vUndefined => true
  | _ => false

/-- Digit run to a natural number, most significant digit first. -/
def digitsVal (cs : List Char) : Nat :=
  cs.foldl (fun a c => a * 10 + (c.toNat - 48)) 0

/-- JSON / JavaScript whitespace. -/
def isWsChar (c : Char) : Bool :=
  c = ' ' || c = '\t' || c = '\n' || c = '\r'

/-- Drop leading whitespace. -/
def skipWs : List Char → List Char
  | c :: cs => if isWsChar c then skipWs cs else c :: cs
  | [] => []

/-- Body of a JSON string after the opening quote; the common escapes are
decoded, an unknown escape refuses the text. -/
def parseStrBody : List Char → List Char → Option (String × List Char)
  | [], _ => none
  | '"' :: rest, acc => some (⟨acc.reverse⟩, rest)
  | '\\' :: e :: rest, acc =>
    if e = '"' then parseStrBody rest ('"' :: acc)
    else if e = '\\' then parseStrBody rest ('\\' :: acc)
    else if e = '/' then parseStrBody rest ('/' :: acc)
    else if e = 'n' then parseStrBody rest ('\n' :: acc)
    else if e = 't' then parseStrBody rest ('\t' :: acc)
    else if e = 'r' then parseStrBody rest ('\r' :: acc)
    else none
  | c :: rest, acc => parseStrBody rest (c :: acc)

/-- Remaining digits of a number whose first digit was already read. -/
def parseNumLoop : List Char → Nat → Nat × List Char
  | c :: cs, acc => if c.isDigit then parseNumLoop cs (acc * 10 + (c.toNat - 48)) else (acc, c :: cs)
  | [], acc => (acc, [])

/-- A JSON integer literal whose first digit is `c`; a leading zero followed by
another digit is refused, as `JSON.parse` refuses it. -/
def parseNum (c : Char) (rest : List Char) : Option (Nat × List Char) :=
  if c = '0' then
    match rest with
    | d :: _ => if d.isDigit then none else some (0, rest)
    | [] => some (0, [])
  else some (parseNumLoop rest (c.toNat - 48))

mutual

/-- One JSON value, fuelled: the fuel bounds the number of nested parse steps
and is chosen large enough for the whole text by `jsonParse`. -/
def parseVal : Nat → List Char → Option (JSVal × List Char)
  | 0, _ => none
  | Nat.succ fuel, cs =>
    match skipWs cs with
    | 'n' :: 'u' :: 'l' :: 'l' :: rest => some (.vNull, rest)
    | 't' :: 'r' :: 'u' :: 'e' :: rest => some (.vBool true, rest)
    | 'f' :: 'a' :: 'l' :: 's' :: 'e' :: rest => some (.vBool false, rest)
    | '"' :: rest =>
      match parseStrBody rest [] with
      | some (s, rest2) => some (.vStr s, rest2)
      | none => none
    | '[' :: rest =>
      match skipWs rest with
      | ']' :: rest2 => some (.vArr [], rest2)
      | _ => parseItems fuel rest []
    | '\x7b' :: rest =>
      match skipWs rest with
      | '\x7d' :: rest2 => some (.vObj [], rest2)
      | _ => parseFields fuel rest []
    | '-' :: c :: rest =>
      if c.isDigit then
        match parseNum c rest with
        | some (n, rest2) => some (.vNum (-(n : Int)), rest2)
        | none => none
      else none
    | c :: rest =>
      if c.isDigit then
        match parseNum c rest with
        | some (n, rest2) => some (.vNum (n : Int), rest2)
        | none => none
      else none
    | [] => none

/-- Comma-separated items of a non-empty JSON array, up to `]`. -/
def parseItems : Nat → List Char → List JSVal → Option (JSVal × List Char)
  | 0, _, _ => none
  | Nat.succ fuel, cs, acc =>
    match parseVal fuel cs with
    | none => none
    | some (v, rest) =>
      match skipWs rest with
      | ',' :: rest2 => parseItems fuel rest2 (acc ++ [v])
      | ']' :: rest2 => some (.vArr (acc ++ [v]), rest2)
      | _ => none

/-- Comma-separated fields of a non-empty JSON object, up to the closing brace. -/
def parseFields : Nat → List Char → List (String × JSVal) → Option (JSVal × List Char)
  | 0, _, _ => none
  | Nat.succ fuel, cs, acc =>
    match skipWs cs with
    | '"' :: rest =>
      match parseStrBody rest [] with
      | none => none
      | some (k, rest2) =>
        match skipWs rest2 with
        | ':' :: rest3 =>
          match parseVal fuel rest3 with
          | none => none
          | some (v, rest4) =>
            match skipWs rest4 with
            | ',' :: rest5 => parseFields fuel rest5 (acc ++ [(k, v)])
            | '\x7d' :: rest5 => some (.vObj (acc ++ [(k, v)]), rest5)
            | _ => none
        | _ => none
    | _ => none

end

/-- `JSON.parse(s)`: one complete JSON value, trailing garbage refused.
Fractional and exponent number literals are outside the modelled fragment and
are refused; no claim exercises them. -/
def jsonParse (s : String) : Except JSErr JSVal :=
  match parseVal (2 * s.data.length + 2) s.data with
  | some (v, rest) =>
    match skipWs rest with
    | [] => .ok v
    | _ => .error (.jsonError "unexpected trailing characters")
  | none => .error (.jsonError "unexpected token")

/-- `ensureArray(value)` from `debug-helper.js`; the identical definition also
appears in the fix guide and the quick-fix script. The `try`/`catch` around
`JSON.parse` is the `match` on `jsonParse`. -/
def ensureArray (value : JSVal) : JSVal :=
  if value.isArray then value
  else if value.isNullish then .vArr []
  else match value with
    | .vStr s =>
      match jsonParse s with
      | .ok parsed => if parsed.isArray then parsed else .vArr [parsed]
      | .error _ => .vArr [.vStr s]
    | v => .vArr [v]

example : ensureArray (.vStr "[1,2,3]") = .vArr [.vNum 1, .vNum 2, .vNum 3] := rfl
example : ensureArray (.vStr "\x7b\"a\":1\x7d") = .vArr [.vObj [("a", .vNum 1)]] := rfl
example : ensureArray (.vStr "not json") = .vArr [.vStr "not json"] := rfl
example : ensureArray (.vStr "") = .vArr [.vStr ""] := rfl
example : ensureArray (.vStr "42") = .vArr [.vNum 42] := rfl
example : ensureArray (.vStr "true") = .vArr [.vBool true] := rfl
example : ensureArray .vNull = .vArr [] := rfl
example : ensureArray (.vNum 7) = .vArr [.vNum 7] := rfl

/-- Lookup of an own field of an object literal; a later binding of the same
key wins, as in a JavaScript object literal. Absent field reads `undefined`. -/
def lookupField (fs : List (String × JSVal)) (k : String) : JSVal :=
  (fs.foldl (fun acc p => if p.1 = k then some p.2 else acc) none).getD .vUndefined

/-- A property key that is a canonical array index ("0", "1", ..., no leading
zeros), and its value. -/
def canonIndex (k : String) : Option Nat :=
  match k.data with
  | [] => none
  | [c] => if c.isDigit then some (c.toNat - 48) else none
  | c :: cs => if c.isDigit && c != '0' && cs.all Char.isDigit then some (digitsVal (c :: cs)) else none

/-- Property read `v[k]` on a non-nullish value: objects read own fields,
arrays and strings expose `length` and their indexed elements, any other read
is `undefined`. Prototype methods are not part of the value model, so reading
one also gives `undefined`; no snippet reads a method without calling it, and
calls are modelled separately. -/
def getOwn : JSVal → String → JSVal
  | .vObj fs, k => lookupField fs k
  | .vArr xs, k =>
    if k = "length" then .vNum (Int.ofNat xs.length)
    else match canonIndex k with
      | some i => xs.getD i .vUndefined
      | none => .vUndefined
  | .vStr s, k =>
    if k = "length" then .vNum (Int.ofNat s.data.length)
    else match canonIndex k with
      | some i =>
        match s.data.drop i with
        | c :: _ => .vStr ⟨[c]⟩
        | [] => .vUndefined
      | none => .vUndefined
  | _, _ => .vUndefined

/-- Unguarded property read `v.k`: throws a TypeError when `v` is nullish. -/
def propGet (v : JSVal) (k : String) : Except JSErr JSVal :=
  if v.isNullish then .error (.typeError "cannot read properties of nullish value")
  else .ok (getOwn v k)

/-- Optional-chained property read `v?.[k]`: `undefined` when `v` is nullish. -/
def optGet (v : JSVal) (k : String) : JSVal :=
  if v.isNullish then .vUndefined else getOwn v k

/-- `v?.length`, as the indicators read it. -/
def optLen (v : JSVal) : JSVal :=
  optGet v "length"

/-- `Number(s)` on the modelled fragment: trimmed empty text is `0`, an
optionally signed digit run is its value, anything else is NaN (`none`). -/
def strToNumber (s : String) : Option Int :=
  let t := ((s.data.dropWhile isWsChar).reverse.dropWhile isWsChar).reverse
  match t with
  | [] => some 0
  | '-' :: ds => if ds ≠ [] && ds.all Char.isDigit then some (-(digitsVal ds : Int)) else none
  | '+' :: ds => if ds ≠ [] && ds.all Char.isDigit then some ((digitsVal ds : Int)) else none
  | ds => if ds.all Char.isDigit then some ((digitsVal ds : Int)) else none

/-- `ToNumber` as applied by a numeric comparison: `none` is NaN. Plain
objects and multi-element arrays coerce to NaN; a one-element array coerces
through its element, as JavaScript string conversion does. -/
def jsToNumber : JSVal → Option Int
  | .vNull => some 0
  | .vUndefined => none
  | .vBool b => some (if b then 1 else 0)
  | .vNum n => some n
  | .vStr s => strToNumber s
  | .vObj _ => none
  | .vArr [] => some 0
  | .vArr [.vNull] => some 0
  | .vArr [.vUndefined] => some 0
  | .vArr [.vBool _] => none
  | .vArr [.vNum n] => some n
  | .vArr [.vStr s] => strToNumber s
  | .vArr [.vArr ys] => jsToNumber (.vArr ys)
  | .vArr [.vObj _] => none
  | .vArr (_ :: _ :: _) => none

/-- The comparison `v > k` against a number literal `k`; false when either
side converts to NaN. -/
def jsGT (v : JSVal) (k : Int) : Bool :=
  match jsToNumber v with
  | some n => decide (k < n)
  | none => false

/-- JavaScript truthiness. -/
def jsTruthy : JSVal → Bool
  | .vNull => false
  | .vUndefined => false
  | .vBool b => b
  | .vNum n => n != 0
  | .vStr s => s != ""
  | .vArr _ => true
  | .vObj _ => true

/-- The value of `a || b`. -/
def jsOr (a b : JSVal) : JSVal :=
  if jsTruthy a then a else b

/-- `v === true`. -/
def strictEqTrue : JSVal → Bool
  | .vBool true => true
  | _ => false

/-- `v === "lit"` for a string literal. -/
def strictEqStr (v : JSVal) (lit : String) : Bool :=
  match v with
  | .vStr t => t == lit
  | _ => false

/-- Does `needle` occur in `hay` as a contiguous run, starting here? -/
def matchesAt : List Char → List Char → Bool
  | _, [] => true
  | [], _ :: _ => false
  | h :: hs, n :: ns => h == n && matchesAt hs ns

/-- Does `needle` occur anywhere in `hay`? -/
def containsSub : List Char → List Char → Bool
  | [], ns => ns.isEmpty
  | h :: t, ns => matchesAt (h :: t) ns || containsSub t ns

/-- The call `recv?.includes(needle)`: `undefined` when `recv` is nullish
(the chain short-circuits), substring search on a string, membership on an
array, and a TypeError on any other receiver, whose `includes` is not a
function. -/
def jsCallIncludes (recv : JSVal) (needle : String) : Except JSErr JSVal :=
  if recv.isNullish then .ok .vUndefined
  else match recv with
    | .vStr s => .ok (.vBool (containsSub s.data needle.data))
    | .vArr xs => .ok (.vBool (xs.any (fun x => strictEqStr x needle)))
    | _ => .error (.typeError "includes is not a function")

/-- `s.split(".")`: segments between dots, empty segments kept. -/
def splitDots : List Char → List Char → List String
  | [], acc => [⟨acc.reverse⟩]
  | c :: cs, acc => if c = '.' then ⟨acc.reverse⟩ :: splitDots cs [] else splitDots cs (c :: acc)

/-- `path.split(".")` on a string path. -/
def jsSplitDot (s : String) : List String :=
  splitDots s.data []

/-- Decimal digits of a natural number, fuelled by the number itself. -/
def natToChars : Nat → Nat → List Char
  | 0, _ => []
  | Nat.succ fuel, n =>
    if n < 10 then [Char.ofNat (48 + n)]
    else natToChars fuel (n / 10) ++ [Char.ofNat (48 + n % 10)]

/-- `String(n)` for an integer. -/
def intToString (n : Int) : String :=
  if n < 0 then ⟨'-' :: natToChars (n.natAbs + 1) n.natAbs⟩
  else ⟨natToChars (n.natAbs + 1) n.natAbs⟩

/-- Conversion of an array element to a property key, as `result?.[key]` does
when the path was supplied as an array. Array and object keys go through the
default string conversion, modelled shallowly; no snippet or claim exercises
those keys. -/
def jsToStringKey : JSVal → String
  | .vStr s => s
  | .vNum n => intToString n
  | .vBool true => "true"
  | .vBool false => "false"
  | .vNull => "null"
  | .vUndefined => "undefined"
  | .vArr _ => ""
  | .vObj _ => "[object Object]"

/-- `Array.isArray(path) ? path : path.split(".")` from the quick-fix script's
`safeGet`: an array path is used as is, a string path is split on dots, any
other path throws (its `split` is not a function) and the `catch` answers. -/
def pathKeys (path : JSVal) : Except JSErr (List String) :=
  match path with
  | .vArr xs => .ok (xs.map jsToStringKey)
  | .vStr s => .ok (jsSplitDot s)
  | _ => .error (.typeError "path.split is not a function")

/-- `path.split(".")` from the fix guide's `safeGet`, which has no array case. -/
def pathKeysSplit (path : JSVal) : Except JSErr (List String) :=
  match path with
  | .vStr s => .ok (jsSplitDot s)
  | _ => .error (.typeError "path.split is not a function")

/-- The walking loop shared by both `safeGet` variants:
`result = result?.[key]`, answering `none` the moment a step is nullish
(the early `return defaultValue`), else the final value. -/
def walkO : JSVal → List String → Option JSVal
  | r, [] => some r
  | r, k :: ks =>
    let r2 := optGet r k
    if r2.isNullish then none else walkO r2 ks

/-- `safeGet(obj, path, defaultValue)` from the quick-fix script
(`src/unnamed/part_001`, default `null` at the call sites that omit it). -/
def safeGet (obj path defaultValue : JSVal) : JSVal :=
  match pathKeys path with
  | .ok keys =>
    match walkO obj keys with
    | some r => r
    | none => defaultValue
  | .error _ => defaultValue

namespace FixGuide

/-- `safeGet(obj, path, defaultValue = [])` from the fix guide
(`src/unnamed/part_000`): same walk, but a successful walk is normalized
through `ensureArray` before being returned. -/
def safeGet (obj path defaultValue : JSVal) : JSVal :=
  match pathKeysSplit path with
  | .ok keys =>
    match walkO obj keys with
    | some r => ensureArray r
    | none => defaultValue
  | .error _ => defaultValue

end FixGuide

/-- `safeInputAll()`: the ambient `$input.all()` call is modelled as an
explicit argument carrying either its result or the error it threw, as the
spec's design notes direct for ambient accessors. Identical in the fix guide
and the quick-fix script. -/
def safeInputAll (inputAll : Except JSErr JSVal) : JSVal :=
  match inputAll with
  | .ok input => if input.isArray then input else .vArr [input]
  | .error _ => .vArr []

example : safeGet (.vObj [("a", .vObj [("b", .vNum 1)])]) (.vStr "a.c") (.vArr []) = .vArr [] := rfl
example : FixGuide.safeGet (.vObj [("a", .vObj [("b", .vNum 1)])]) (.vStr "a.c") (.vArr []) = .vArr [] := rfl
example : safeGet (.vObj [("a", .vObj [("b", .vNum 1)])]) (.vStr "a.b") .vNull = .vNum 1 := rfl
example : FixGuide.safeGet (.vObj [("a", .vObj [("b", .vNum 1)])]) (.vStr "a.b") (.vArr []) = .vArr [.vNum 1] := rfl
example : safeGet (.vObj []) (.vNum 5) (.vStr "d") = .vStr "d" := rfl
example : safeInputAll (.error (.typeError "no input")) = .vArr [] := rfl
example : safeInputAll (.ok (.vNum 7)) = .vArr [.vNum 7] := rfl

/-- The `routing` record built by `classifyTaskComplexity`. -/
structure Routing : Type where
  llmModel : String
  preprocessing : String
  caching : String
deriving Repr, DecidableEq

/-- The classification record returned by `classifyTaskComplexity`: the tier,
the complexity score, the full indicator map in source order, and the routing
choices. -/
structure Classification : Type where
  tier : String
  score : Nat
  indicators : List (String × Bool)
  routing : Routing
deriving Repr, DecidableEq

/-- The field names the classifier's indicators read from the descriptor. -/
def classifierFields : List String :=
  ["sources", "content", "uncertainties", "requiresComparison", "priority", "stakes",
   "analysisType", "reasoning", "outputType", "requiresSynthesis", "context", "requiresNuance"]

/-- `classifyTaskComplexity(task)` from the Task Router Node of
`project_rules.md`. The function has no `try`/`catch`: the first member read
throws if `task` itself is nullish, and the call
`task.content?.includes('unclear')` throws when `content` is non-nullish but
has no `includes` method. After the first member read succeeds `task` is known
non-nullish, so the later reads are written with the total `getOwn`. Every
indicator value is a boolean in JavaScript too, so the indicator map carries
`Bool`. -/
def classifyTaskComplexity (task : JSVal) : Except JSErr Classification :=
  match propGet task "sources" with
  | .error e => .error e
  | .ok sources =>
    let multiDocument := jsGT (jsOr (optLen sources) (.vNum 1)) 1
    match jsCallIncludes (getOwn task "content") "unclear" with
    | .error e => .error e
    | .ok incl =>
      let ambiguityPresent := jsTruthy (jsOr incl (.vBool (jsGT (optLen (getOwn task "uncertainties")) 0)))
      let crossReference := strictEqTrue (getOwn task "requiresComparison")
      let qualityCritical := strictEqStr (getOwn task "priority") "high" || strictEqStr (getOwn task "stakes") "critical"
      let complexReasoning := strictEqStr (getOwn task "analysisType") "complex" || strictEqStr (getOwn task "reasoning") "advanced"
      let synthesis := strictEqStr (getOwn task "outputType") "strategic" || strictEqTrue (getOwn task "requiresSynthesis")
      let contextHeavy := jsGT (jsOr (optLen (getOwn task "context")) (.vNum 0)) 1000
      let nuancedInterpretation := strictEqTrue (getOwn task "requiresNuance")
      let indicators := [("multiDocument", multiDocument), ("ambiguityPresent", ambiguityPresent),
        ("crossReference", crossReference), ("qualityCritical", qualityCritical),
        ("complexReasoning", complexReasoning), ("synthesis", synthesis),
        ("contextHeavy", contextHeavy), ("nuancedInterpretation", nuancedInterpretation)]
      let complexity := (indicators.filter (fun p => p.2)).length
      .ok
        { tier := if 3 ≤ complexity then "premium" else "standard"
          score := complexity
          indicators := indicators
          routing :=
            { llmModel := if 3 ≤ complexity then "premium_model" else "standard_model"
              preprocessing := if 3 ≤ complexity then "essential_only" else "standard"
              caching := if 3 ≤ complexity then "aggressive" else "normal" } }

/-- The ambient state an n8n Code node could in principle observe: a clock,
a random seed, and the upstream input accessor. `classifyTaskComplexity`
reads none of it; `classifyInEnv` records that by taking the environment
explicitly and passing nothing of it on. -/
structure NodeEnv : Type where
  clock : Nat
  randomSeed : Nat
  inputAll : Except JSErr JSVal

/-- The classifier as invoked inside a Code node with ambient state `env`. -/
def classifyInEnv (_env : NodeEnv) (task : JSVal) : Except JSErr Classification :=
  classifyTaskComplexity task

/-- Content values on which `task.content?.includes('unclear')` does not
throw: nullish content short-circuits, string and array content have an
`includes` method. -/
def contentSafe : JSVal → Bool
  | .vNull => true
  | .vUndefined => true
  | .vStr _ => true
  | .vArr _ => true
  | _ => false

example : (classifyTaskComplexity (.vObj [])).map Classification.score = .ok 0 := rfl
example : (classifyTaskComplexity (.vObj [])).map Classification.tier = .ok "standard" := rfl
example : classifyTaskComplexity (.vObj [("content", .vNum 5)])
    = .error (.typeError "includes is not a function") := rfl
example : (classifyTaskComplexity (.vObj [("requiresComparison", .vBool true), ("requiresNuance", .vBool true)])).map Classification.score = .ok 2 := rfl
example : (classifyTaskComplexity (.vObj [("requiresComparison", .vBool true), ("requiresNuance", .vBool true)])).map Classification.tier = .ok "standard" := rfl
example : (classifyTaskComplexity (.vObj [("requiresComparison", .vBool true), ("requiresNuance", .vBool true), ("stakes", .vStr "critical")])).map Classification.score = .ok 3 := rfl
example : (classifyTaskComplexity (.vObj [("requiresComparison", .vBool true), ("requiresNuance", .vBool true), ("stakes", .vStr "critical")])).map Classification.tier = .ok "premium" := rfl
example : (classifyTaskComplexity (.vObj [("sources", .vArr [.vNum 1, .vNum 2]), ("stakes", .vStr "critical"), ("requiresSynthesis", .vBool true)])).map Classification.tier = .ok "premium" := rfl
example : (classifyTaskComplexity (.vObj [("sources", .vStr "ab")])).map
    (fun c => lookupField (c.indicators.map (fun p => (p.1, JSVal.vBool p.2))) "multiDocument")
    = .ok (.vBool true) := rfl
example : (classifyTaskComplexity (.vObj [("content", .vStr "this is unclear")])).map Classification.score = .ok 1 := rfl

/-- Every branch of `ensureArray` produces an array; shared shape lemma. -/
lemma ensureArrayShape (v : JSVal) : ∃ xs, ensureArray v = .vArr xs := by
  cases v with
  | vNull => exact ⟨[], rfl⟩
  | vUndefined => exact ⟨[], rfl⟩
  | vBool b => exact ⟨[.vBool b], rfl⟩
  | vNum n => exact ⟨[.vNum n], rfl⟩
  | vArr xs => exact ⟨xs, rfl⟩
  | vObj fs => exact ⟨[.vObj fs], rfl⟩
  | vStr s =>
    cases h : jsonParse s with
    | error e => exact ⟨[.vStr s], by simp [ensureArray, JSVal.isArray, JSVal.isNullish, h]⟩
    | ok p =>
      cases p with
      | vArr l => exact ⟨l, by simp [ensureArray, JSVal.isArray, JSVal.isNullish, h]⟩
      | vNull => exact ⟨[.vNull], by simp [ensureArray, JSVal.isArray, JSVal.isNullish, h]⟩
      | vUndefined => exact ⟨[.vUndefined], by simp [ensureArray, JSVal.isArray, JSVal.isNullish, h]⟩
      | vBool b => exact ⟨[.vBool b], by simp [ensureArray, JSVal.isArray, JSVal.isNullish, h]⟩
      | vNum n => exact ⟨[.vNum n], by simp [ensureArray, JSVal.isArray, JSVal.isNullish, h]⟩
      | vStr t => exact ⟨[.vStr t], by simp [ensureArray, JSVal.isArray, JSVal.isNullish, h]⟩
      | vObj fs => exact ⟨[.vObj fs], by simp [ensureArray, JSVal.isArray, JSVal.isNullish, h]⟩

/-- C3: for every input value whatsoever (null, undefined, numbers, booleans,
objects, arrays, and arbitrary strings), `ensureArray` returns an ordered
sequence (an array) and never raises: it is a total Lean function into
`JSVal` whose every result is `vArr`, with the only fallible sub-operation,
`JSON.parse`, handled by the modelled `catch`. -/
theorem ensureArray_total_yields_array : ∀ v : JSVal, ∃ xs, ensureArray v = .vArr xs :=
  ensureArrayShape

/-- C4: on textual input `ensureArray` attempts a JSON parse:
`"[1,2,3]"` gives the sequence `[1,2,3]`, an object text gives the parsed
object wrapped as a one-element sequence, `"not json"` gives `["not json"]`,
and `""` (whose JSON parse fails) gives the one-element sequence containing
the empty string. -/
theorem ensureArray_json_text_cases :
    ensureArray (.vStr "[1,2,3]") = .vArr [.vNum 1, .vNum 2, .vNum 3]
    ∧ ensureArray (.vStr "\x7b\"a\":1\x7d") = .vArr [.vObj [("a", .vNum 1)]]
    ∧ ensureArray (.vStr "not json") = .vArr [.vStr "not json"]
    ∧ ensureArray (.vStr "") = .vArr [.vStr ""] :=
  ⟨rfl, rfl, rfl, rfl⟩

/-- C8: a value that is already an array is returned unchanged (same elements,
same order, same length), so normalization is idempotent. -/
theorem ensureArray_id_on_arrays :
    (∀ xs : List JSVal, ensureArray (.vArr xs) = .vArr xs)
    ∧ (∀ v : JSVal, ensureArray (ensureArray v) = ensureArray v) := by
  refine ⟨fun xs => rfl, fun v => ?_⟩
  obtain ⟨xs, h⟩ := ensureArrayShape v
  rw [h]
  rfl

@[simp] lemma isArray_vStr (s : String) : (JSVal.vStr s).isArray = false := rfl

@[simp] lemma isNullish_vStr (s : String) : (JSVal.vStr s).isNullish = false := rfl

/-- C10: a string that is valid JSON of a non-array value normalizes to the
parsed value wrapped as a one-element sequence, not to the original text; in
particular `"42"` gives `[42]` (the number, not the string) and `"true"`
gives `[true]`. -/
theorem ensureArray_unwraps_scalar_json :
    (∀ s p, jsonParse s = .ok p → p.isArray = false → ensureArray (.vStr s) = .vArr [p])
    ∧ ensureArray (.vStr "42") = .vArr [.vNum 42]
    ∧ ensureArray (.vStr "true") = .vArr [.vBool true]
    ∧ ensureArray (.vStr "42") ≠ .vArr [.vStr "42"] := by
  refine ⟨?_, rfl, rfl, ?_⟩
  · intro s p h hp
    simp [ensureArray, h, hp]
  · intro h
    rw [show ensureArray (.vStr "42") = .vArr [.vNum 42] from rfl] at h
    simp at h

/-- Witness for C10 at the concrete text `"42"`. -/
theorem ensureArray_unwraps_scalar_json_witness :
    ensureArray (.vStr "42") = .vArr [.vNum 42] :=
  ensureArray_unwraps_scalar_json.1 "42" (.vNum 42) rfl rfl

/-- C5: the safe path lookup walks the path one segment at a time, answers
the caller-supplied default as soon as a segment resolves to a nullish value,
and answers the default rather than raising on a malformed (non-string,
non-array) path; in particular looking up `a.c` in `(a:(b:1))` with default
`[]` answers `[]`, in both source variants of `safeGet`. -/
theorem safeGet_default_and_total :
    (∀ obj path d e, pathKeys path = .error e → safeGet obj path d = d)
    ∧ (∀ obj path d keys, pathKeys path = .ok keys → walkO obj keys = none → safeGet obj path d = d)
    ∧ (∀ r k ks, (optGet r k).isNullish = true → walkO r (k :: ks) = none)
    ∧ safeGet (.vObj [("a", .vObj [("b", .vNum 1)])]) (.vStr "a.c") (.vArr []) = .vArr []
    ∧ FixGuide.safeGet (.vObj [("a", .vObj [("b", .vNum 1)])]) (.vStr "a.c") (.vArr []) = .vArr [] := by
  refine ⟨?_, ?_, ?_, rfl, rfl⟩
  · intro obj path d e h
    simp [safeGet, h]
  · intro obj path d keys h hw
    simp [safeGet, h, hw]
  · intro r k ks h
    simp [walkO, h]

/-- Witness for C5: a numeric path is malformed and answers the default, and
a path whose second segment is absent answers the default. -/
theorem safeGet_default_and_total_witness :
    safeGet (.vObj []) (.vNum 5) (.vStr "dflt") = .vStr "dflt"
    ∧ safeGet (.vObj [("a", .vNum 1)]) (.vStr "a.b") (.vStr "dflt") = .vStr "dflt"
    ∧ walkO .vNull ["x"] = none :=
  ⟨safeGet_default_and_total.1 (.vObj []) (.vNum 5) (.vStr "dflt")
      (.typeError "path.split is not a function") rfl,
   safeGet_default_and_total.2.1 (.vObj [("a", .vNum 1)]) (.vStr "a.b") (.vStr "dflt")
      ["a", "b"] rfl rfl,
   safeGet_default_and_total.2.2.1 .vNull "x" [] rfl⟩

/-- C6: the safe bulk fetch answers the empty sequence whenever the upstream
fetch throws, wraps a single non-array upstream element as a one-element
sequence, and always answers an array, never propagating a failure. -/
theorem safeInputAll_never_propagates :
    (∀ e, safeInputAll (.error e) = .vArr [])
    ∧ (∀ v, v.isArray = false → safeInputAll (.ok v) = .vArr [v])
    ∧ (∀ u, ∃ xs, safeInputAll u = .vArr xs) := by
  refine ⟨fun e => rfl, ?_, ?_⟩
  · intro v h
    simp [safeInputAll, h]
  · intro u
    match u with
    | .error e => exact ⟨[], rfl⟩
    | .ok (.vArr xs) => exact ⟨xs, rfl⟩
    | .ok .vNull => exact ⟨[.vNull], rfl⟩
    | .ok .vUndefined => exact ⟨[.vUndefined], rfl⟩
    | .ok (.vBool b) => exact ⟨[.vBool b], rfl⟩
    | .ok (.vNum n) => exact ⟨[.vNum n], rfl⟩
    | .ok (.vStr s) => exact ⟨[.vStr s], rfl⟩
    | .ok (.vObj fs) => exact ⟨[.vObj fs], rfl⟩

/-- Witness for C6 at a single non-array upstream element. -/
theorem safeInputAll_never_propagates_witness :
    safeInputAll (.ok (.vNum 7)) = .vArr [.vNum 7] :=
  safeInputAll_never_propagates.2.1 (.vNum 7) rfl

/-- Whenever the classifier returns, the tier of the returned record is the
threshold function of its own score; shared shape lemma. -/
lemma classify_ok_tier (task : JSVal) (r : Classification)
    (h : classifyTaskComplexity task = .ok r) :
    r.tier = (if 3 ≤ r.score then "premium" else "standard") := by
  unfold classifyTaskComplexity at h
  split at h
  · exact absurd h (by simp)
  · split at h
    · exact absurd h (by simp)
    · rw [Except.ok.injEq] at h
      subst h
      rfl

/-- C2: whenever `classifyTaskComplexity` returns a classification, its tier
is "premium" exactly when its score (the count of true indicators) is at
least 3; a descriptor with exactly 2 true indicators is classified
"standard" and one with exactly 3 is classified "premium". -/
theorem classifier_tier_threshold :
    (∀ task r, classifyTaskComplexity task = .ok r → (r.tier = "premium" ↔ 3 ≤ r.score))
    ∧ (classifyTaskComplexity (.vObj [("requiresComparison", .vBool true), ("requiresNuance", .vBool true)])).map Classification.score = .ok 2
    ∧ (classifyTaskComplexity (.vObj [("requiresComparison", .vBool true), ("requiresNuance", .vBool true)])).map Classification.tier = .ok "standard"
    ∧ (classifyTaskComplexity (.vObj [("requiresComparison", .vBool true), ("requiresNuance", .vBool true), ("stakes", .vStr "critical")])).map Classification.score = .ok 3
    ∧ (classifyTaskComplexity (.vObj [("requiresComparison", .vBool true), ("requiresNuance", .vBool true), ("stakes", .vStr "critical")])).map Classification.tier = .ok "premium" := by
  refine ⟨?_, rfl, rfl, rfl, rfl⟩
  intro task r h
  have ht := classify_ok_tier task r h
  by_cases h3 : 3 ≤ r.score <;> simp [ht, h3]

/-- Witness for C2, at the empty descriptor. -/
theorem classifier_tier_threshold_witness :
    ∃ r, classifyTaskComplexity (.vObj []) = .ok r ∧ (r.tier = "premium" ↔ 3 ≤ r.score) :=
  ⟨_, rfl, classifier_tier_threshold.1 (.vObj []) _ rfl⟩

/-- C7: a descriptor in which every field an indicator reads is absent — in
particular the empty descriptor — is classified without failing, with every
indicator false, score 0 and tier "standard". -/
theorem classifier_empty_descriptor (fs : List (String × JSVal))
    (h : ∀ k ∈ classifierFields, lookupField fs k = .vUndefined) :
    classifyTaskComplexity (.vObj fs) =
      .ok { tier := "standard", score := 0,
            indicators := [("multiDocument", false), ("ambiguityPresent", false),
              ("crossReference", false), ("qualityCritical", false),
              ("complexReasoning", false), ("synthesis", false),
              ("contextHeavy", false), ("nuancedInterpretation", false)],
            routing := { llmModel := "standard_model", preprocessing := "standard", caching := "normal" } } := by
  have hs := h "sources" (by simp [classifierFields])
  have hc := h "content" (by simp [classifierFields])
  have hu := h "uncertainties" (by simp [classifierFields])
  have hrc := h "requiresComparison" (by simp [classifierFields])
  have hpr := h "priority" (by simp [classifierFields])
  have hst := h "stakes" (by simp [classifierFields])
  have ha := h "analysisType" (by simp [classifierFields])
  have hre := h "reasoning" (by simp [classifierFields])
  have ho := h "outputType" (by simp [classifierFields])
  have hrs := h "requiresSynthesis" (by simp [classifierFields])
  have hcx := h "context" (by simp [classifierFields])
  have hrn := h "requiresNuance" (by simp [classifierFields])
  simp [classifyTaskComplexity, propGet, JSVal.isNullish, getOwn, hs, hc, hu, hrc, hpr, hst,
    ha, hre, ho, hrs, hcx, hrn, jsCallIncludes, optLen, optGet, jsOr, jsTruthy, jsGT,
    jsToNumber, strictEqTrue, strictEqStr]

/-- Witness for C7 at the empty descriptor, where every lookup is absent. -/
theorem classifier_empty_descriptor_witness :
    classifyTaskComplexity (.vObj []) =
      .ok { tier := "standard", score := 0,
            indicators := [("multiDocument", false), ("ambiguityPresent", false),
              ("crossReference", false), ("qualityCritical", false),
              ("complexReasoning", false), ("synthesis", false),
              ("contextHeavy", false), ("nuancedInterpretation", false)],
            routing := { llmModel := "standard_model", preprocessing := "standard", caching := "normal" } } :=
  classifier_empty_descriptor [] (fun _ _ => rfl)

/-- C9: the classifier is deterministic: it reads none of the ambient state a
Code node could observe (clock, random seed, upstream input), so two
invocations under any two environments on the same descriptor return the
identical classification — same tier, same score, same indicator map. -/
theorem classifier_no_ambient_dependence :
    ∀ (env env' : NodeEnv) (task : JSVal), classifyInEnv env task = classifyInEnv env' task :=
  fun _ _ _ => rfl

/-- C1 counterexample: the descriptor `(content: 5)` is a task descriptor
with a malformed `content` field, and on it `classifyTaskComplexity` raises a
TypeError (`task.content?.includes` is not a function) instead of treating
the indicator as false: the function body has no `try`/`catch`. -/
theorem classifier_raises_on_numeric_content :
    classifyTaskComplexity (.vObj [("content", .vNum 5)])
      = .error (.typeError "includes is not a function") := rfl

/-- C1 amended: for every non-nullish descriptor whose `content` field is
absent, nullish, a string, or an array, `classifyTaskComplexity` does not
raise, whatever the types of the remaining fields. -/
theorem classifier_no_raise_on_safe_content (task : JSVal)
    (h1 : task.isNullish = false) (h2 : contentSafe (getOwn task "content") = true) :
    ∃ c, classifyTaskComplexity task = .ok c := by
  unfold classifyTaskComplexity
  have hp : propGet task "sources" = .ok (getOwn task "sources") := by
    simp [propGet, h1]
  rw [hp]
  cases hv : getOwn task "content" with
  | vNull => exact ⟨_, rfl⟩
  | vUndefined => exact ⟨_, rfl⟩
  | vStr s => exact ⟨_, rfl⟩
  | vArr xs => exact ⟨_, rfl⟩
  | vBool b => rw [hv] at h2; exact absurd h2 (by simp [contentSafe])
  | vNum n => rw [hv] at h2; exact absurd h2 (by simp [contentSafe])
  | vObj fso => rw [hv] at h2; exact absurd h2 (by simp [contentSafe])

/-- Witness for the amended C1 at a descriptor with a string `content` and a
malformed (numeric) `uncertainties` field. -/
theorem classifier_no_raise_on_safe_content_witness :
    ∃ c, classifyTaskComplexity (.vObj [("content", .vStr "all clear"), ("uncertainties", .vNum 9)]) = .ok c :=
  classifier_no_raise_on_safe_content
    (.vObj [("content", .vStr "all clear"), ("uncertainties", .vNum 9)]) rfl rfl
